import Mathlib

/-!
Shallow embedding of `pkg/server/sandbox_stop.go` (containerd CRI plugin):
the pod-sandbox teardown orchestrator.  Collaborator calls (sandbox and
container stores, task handle, exit monitor, network namespace resource,
network plugin) are modelled as oracle results supplied in an environment
record; each orchestrator function is a pure Lean function of that
environment that returns the list of external calls it performed (an event
trace) together with its `Except` result.  The `select` race in
`waitSandboxStop` is modelled by an oracle naming which of the three
channels becomes ready first.
-/

/-- Go errors as seen by this file: the `errdefs.ErrNotFound` sentinel, a
context-cancellation error, a fresh message error (`errors.New` /
`errors.Errorf`), and a wrapped error (`errors.Wrap` / `errors.Wrapf`). -/
inductive GoErr where
  | notFound : GoErr
  | canceled : GoErr
  | msg : String → GoErr
  | wrap : String → GoErr → GoErr
deriving Repr, DecidableEq

/-- The root cause of an error chain, as `errors.Cause` computes it. -/
def GoErr.cause : GoErr → GoErr
  | .wrap _ e => e.cause
  | e => e

/-- Embeds `errdefs.IsNotFound`: the cause of the chain is the not-found
sentinel. -/
def isNotFound (e : GoErr) : Bool := e.cause == GoErr.notFound

/-- Sandbox lifecycle states of `pkg/store/sandbox` used by this file:
`StateReady`, `StateNotReady`, `StateUnknown`. -/
inductive SandboxState where
  | ready : SandboxState
  | notReady : SandboxState
  | unknown : SandboxState
deriving Repr, DecidableEq

/-- Rendering of a lifecycle state used when formatting the wrap message of
a failed `stopSandboxContainer` (the `%q` verb on the state). -/
def SandboxState.str : SandboxState → String
  | .ready => "SANDBOX_READY"
  | .notReady => "SANDBOX_NOTREADY"
  | .unknown => "SANDBOX_UNKNOWN"

/-- The slice of `runtime.PodSandboxConfig` this file reads: the port-mapping
list handed to the network plugin (port mappings abstracted to opaque
numbers). -/
structure PodSandboxConfig where
  portMappings : List Nat
deriving Repr, DecidableEq

/-- A live task handle: its pid plus the oracle results of the `Wait` and
`Kill` calls the orchestrator may issue on it (`Wait` success abstracts the
exit channel away); named `TaskHandle` because `Task` is taken by the Lean
core library. -/
structure TaskHandle where
  pid : Nat
  waitResult : Except GoErr Unit
  killResult : Except GoErr Unit

/-- The sandbox-owned network-namespace resource: oracle results of the
`Closed` query and of `Remove`. -/
structure NetNS where
  closedResult : Except GoErr Bool
  removeResult : Except GoErr Unit

/-- The fields of `sandboxstore.Sandbox` this file reads: identity, declared
config, the lifecycle state `Status.Get().State` observes at call time, the
optionally owned network-namespace resource and its recorded filesystem
path. -/
structure Sandbox where
  id : String
  config : PodSandboxConfig
  state : SandboxState
  netNS : Option NetNS
  netNSPath : String

/-- A container record as the container store lists it: identity and the
owning-sandbox foreign key. -/
structure ContainerRec where
  id : String
  sandboxID : String
deriving Repr, DecidableEq

/-- The `eventtypes.TaskExit` event fed to `handleSandboxExit` (time as an
abstract tick count). -/
structure TaskExit where
  containerID : String
  id : String
  pid : Nat
  exitStatus : Nat
  exitedAt : Nat
deriving Repr, DecidableEq

/-- External calls the orchestrator performs, recorded in order as an event
trace. -/
inductive Ev where
  | stopContainer : String → Nat → Ev
  | unmountFiles : String → Ev
  | stopSandboxContainerCall : String → Ev
  | taskWait : String → Ev
  | startExitMonitor : String → Nat → Ev
  | kill : String → Nat → Ev
  | waitStop : String → Ev
  | handleSandboxExitEv : TaskExit → Ev
  | netnsClosedQuery : String → Ev
  | teardownPodCall : String → String → Ev
  | netPluginRemove : String → String → Ev
  | netnsRemove : String → Ev
deriving Repr, DecidableEq

/-- Which of the three channels raced by `waitSandboxStop`'s `select`
becomes ready first: the caller context's done channel, the timeout timer,
or the sandbox's one-shot stopped channel. -/
inductive WaitEvent where
  | ctxDone : WaitEvent
  | timerFired : WaitEvent
  | stopped : WaitEvent
deriving Repr, DecidableEq

/-- Modelled from the spec: the sentinel exit code reserved for
"unknown/unknowable exit status" (`unknownExitCode`, a named constant
defined elsewhere in the repository; its exact value carries no meaning
beyond being a fixed constant). -/
def unknownExitCode : Nat := 255

/-- Modelled from the spec: the fixed bounded-wait duration
(`killContainerTimeout`, a named constant defined elsewhere in the
repository), in abstract ticks. -/
def killContainerTimeout : Nat := 10

/-- Embeds `waitSandboxStop`: a pure three-way event race.  Whichever
channel is ready first determines the outcome: context done yields the
wrapped cancellation error carrying the sandbox ID, timer expiry yields the
timeout error carrying the sandbox ID, the stopped signal yields success.
`ctxErr` is what `ctx.Err()` returns in the cancellation branch. -/
def waitSandboxStop (sandboxID : String) (timeout : Nat) (ctxErr : GoErr)
    (first : WaitEvent) : Except GoErr Unit :=
  match timeout, first with
  | _, .ctxDone =>
      .error (.wrap ("wait sandbox container \"" ++ sandboxID ++ "\" is cancelled") ctxErr)
  | _, .timerFired =>
      .error (.msg ("wait sandbox container \"" ++ sandboxID ++ "\" stop timeout"))
  | _, .stopped => .ok ()

/-- The network plugin when configured: the oracle result of its `Remove`
operation, keyed by sandbox ID and namespace path. -/
structure NetPlugin where
  removeResult : String → String → Except GoErr Unit

/-- Embeds `teardownPod`: fail fast with a configuration error when no
network plugin is configured, otherwise call the plugin's `Remove` with the
sandbox ID and namespace path (labels and port mappings derived from the
config are carried by the call). -/
def teardownPod (netPlugin : Option NetPlugin) (id : String) (path : String)
    (_config : PodSandboxConfig) : List Ev × Except GoErr Unit :=
  match netPlugin with
  | none => ([], .error (.msg "cni config not initialized"))
  | some p => ([.netPluginRemove id path], p.removeResult id path)

/-- Embeds `cleanupUnknownSandbox`: synthesize a single `TaskExit` event
(container ID and ID both the sandbox ID, pid 0, exit status the sentinel
unknown exit code, timestamp now) and return the result of feeding it to
`handleSandboxExit` (supplied as an oracle since its body lives in another
file of the repository). -/
def cleanupUnknownSandbox (handle : TaskExit → Except GoErr Unit) (now : Nat)
    (id : String) : List Ev × Except GoErr Unit :=
  let e : TaskExit :=
    { containerID := id, id := id, pid := 0, exitStatus := unknownExitCode, exitedAt := now }
  ([.handleSandboxExitEv e], handle e)

/-- Environment for `stopSandboxContainer`: the result of the task query on
the sandbox's container, the exit-handling entry point `handleSandboxExit`
(oracle, defined in another file of the repository), the current time, the
caller context's error, and which channel wins the bounded wait's race. -/
structure InfraEnv where
  taskResult : Except GoErr TaskHandle
  handle : TaskExit → Except GoErr Unit
  now : Nat
  ctxErr : GoErr
  waitFirst : WaitEvent

/-- Embeds the tail of `stopSandboxContainer` shared by both the unknown
and the steady-state paths: send SIGKILL to the task (a not-found result is
tolerated), then run the bounded wait for the sandbox's stopped signal. -/
def sandboxKillWait (env : InfraEnv) (sandbox : Sandbox) (task : TaskHandle) :
    List Ev × Except GoErr Unit :=
  match task.killResult with
  | .error e =>
      if isNotFound e then
        ([.kill sandbox.id 9, .waitStop sandbox.id],
         waitSandboxStop sandbox.id killContainerTimeout env.ctxErr env.waitFirst)
      else
        ([.kill sandbox.id 9], .error (.wrap "failed to kill sandbox container" e))
  | .ok _ =>
      ([.kill sandbox.id 9, .waitStop sandbox.id],
       waitSandboxStop sandbox.id killContainerTimeout env.ctxErr env.waitFirst)

/-- Embeds `stopSandboxContainer`: query the task; on a not-found query
route unknown-state sandboxes to the reconciler and treat every other state
as already stopped; on an unknown-state sandbox with a live task subscribe
to the task's exit stream and register the exit monitor before killing;
then kill and run the bounded wait. -/
def stopSandboxContainer (env : InfraEnv) (sandbox : Sandbox) :
    List Ev × Except GoErr Unit :=
  let id := sandbox.id
  let state := sandbox.state
  match env.taskResult with
  | .error e =>
      if isNotFound e then
        if state = .unknown then cleanupUnknownSandbox env.handle env.now id
        else ([], .ok ())
      else ([], .error (.wrap "failed to get sandbox container" e))
  | .ok task =>
      if state = .unknown then
        match task.waitResult with
        | .error e =>
            if isNotFound e then
              let (t, r) := cleanupUnknownSandbox env.handle env.now id
              (.taskWait id :: t, r)
            else
              ([.taskWait id], .error (.wrap "failed to wait for task" e))
        | .ok _ =>
            let (t, r) := sandboxKillWait env sandbox task
            (.taskWait id :: .startExitMonitor id task.pid :: t, r)
      else sandboxKillWait env sandbox task

/-- Environment for `StopPodSandbox` past the store lookup: the container
store's listing, the per-container forced-stop oracle, the
`unmountSandboxFiles` oracle, the optionally configured network plugin, and
the infra-stop environment. -/
structure StopEnv where
  containers : List ContainerRec
  stopContainerResult : String → Except GoErr Unit
  unmountResult : Except GoErr Unit
  netPlugin : Option NetPlugin
  infra : InfraEnv

/-- Embeds the container loop of `StopPodSandbox`: walk the full listing,
skip containers owned by other sandboxes, forcibly stop each matching one
with a zero grace period, and abort on the first failure wrapping it with
that container's ID. -/
def stopContainers (stopRes : String → Except GoErr Unit) (id : String) :
    List ContainerRec → List Ev × Except GoErr Unit
  | [] => ([], .ok ())
  | c :: rest =>
      if c.sandboxID = id then
        match stopRes c.id with
        | .error e =>
            ([.stopContainer c.id 0],
             .error (.wrap ("failed to stop container \"" ++ c.id ++ "\"") e))
        | .ok _ =>
            let (t, r) := stopContainers stopRes id rest
            (.stopContainer c.id 0 :: t, r)
      else stopContainers stopRes id rest

/-- Embeds the network phase of `StopPodSandbox` (its final block): when the
sandbox owns a network-namespace resource, query whether the namespace is
closed (an error aborts), substitute the empty path when it is closed, tear
down the pod network, and on success remove the namespace resource — the
removal invalidating the sandbox's reference to it (Modelled from the spec:
`NetNS.Remove` lives in another file of the repository; on success the
resource is released so it cannot be torn down twice).  Returns the trace,
the result, and the sandbox record as left behind. -/
def netPhase (env : StopEnv) (sandbox : Sandbox) :
    List Ev × Except GoErr Unit × Sandbox :=
  match sandbox.netNS with
  | none => ([], .ok (), sandbox)
  | some ns =>
      let id := sandbox.id
      match ns.closedResult with
      | .error e =>
          ([.netnsClosedQuery id],
           .error (.wrap "failed to check network namespace closed" e), sandbox)
      | .ok closed =>
          let path := if closed then "" else sandbox.netNSPath
          let (tt, rt) := teardownPod env.netPlugin id path sandbox.config
          match rt with
          | .error e =>
              (.netnsClosedQuery id :: .teardownPodCall id path :: tt,
               .error (.wrap ("failed to destroy network for sandbox \"" ++ id ++ "\"") e),
               sandbox)
          | .ok _ =>
              match ns.removeResult with
              | .error e =>
                  (.netnsClosedQuery id :: .teardownPodCall id path :: tt ++ [.netnsRemove id],
                   .error (.wrap ("failed to remove network namespace for sandbox \"" ++ id ++ "\"") e),
                   sandbox)
              | .ok _ =>
                  (.netnsClosedQuery id :: .teardownPodCall id path :: tt ++ [.netnsRemove id],
                   .ok (), { sandbox with netNS := none })

/-- Embeds the middle of `StopPodSandbox` (after the container loop):
unmount the sandbox files, invoke the infra-container stop only when the
lifecycle state is Ready or Unknown, then run the network phase; each step
aborts with a wrapped error. -/
def afterContainers (env : StopEnv) (sandbox : Sandbox) :
    List Ev × Except GoErr Unit × Sandbox :=
  let id := sandbox.id
  match env.unmountResult with
  | .error e =>
      ([.unmountFiles id], .error (.wrap "failed to unmount sandbox files" e), sandbox)
  | .ok _ =>
      let state := sandbox.state
      if state = .ready ∨ state = .unknown then
        let (ti, ri) := stopSandboxContainer env.infra sandbox
        match ri with
        | .error e =>
            (.unmountFiles id :: .stopSandboxContainerCall id :: ti,
             .error (.wrap ("failed to stop sandbox container \"" ++ id ++
               "\" in \"" ++ state.str ++ "\" state") e),
             sandbox)
        | .ok _ =>
            let (tn, rn, sb) := netPhase env sandbox
            (.unmountFiles id :: .stopSandboxContainerCall id :: ti ++ tn, rn, sb)
      else
        let (tn, rn, sb) := netPhase env sandbox
        (.unmountFiles id :: tn, rn, sb)

/-- Embeds `StopPodSandbox` after a successful store lookup: stop all
containers owned by the sandbox, then run the remaining phases
(`afterContainers`).  Each step aborts the whole call on failure with a
wrapped error.  Returns the trace, the result, and the sandbox record as
left behind. -/
def stopPodSandbox (env : StopEnv) (sandbox : Sandbox) :
    List Ev × Except GoErr Unit × Sandbox :=
  match stopContainers env.stopContainerResult sandbox.id env.containers with
  | (t, .error e) => (t, .error e, sandbox)
  | (t, .ok _) =>
      let (t2, r, sb) := afterContainers env sandbox
      (t ++ t2, r, sb)

/-- Classifies an event by the external call it records (used to state which
phases of the orchestrator perform which calls). -/
def Ev.kind : Ev → Nat
  | .stopContainer _ _ => 0
  | .unmountFiles _ => 1
  | .stopSandboxContainerCall _ => 2
  | .taskWait _ => 3
  | .startExitMonitor _ _ => 4
  | .kill _ _ => 5
  | .waitStop _ => 6
  | .handleSandboxExitEv _ => 7
  | .netnsClosedQuery _ => 8
  | .teardownPodCall _ _ => 9
  | .netPluginRemove _ _ => 10
  | .netnsRemove _ => 11

/-- Every event the container loop emits is a container-stop call. -/
theorem kinds_stopContainers (f : String → Except GoErr Unit) (id : String) :
    ∀ cs : List ContainerRec, ∀ e ∈ (stopContainers f id cs).1, e.kind = 0 := by
  intro cs
  induction cs with
  | nil => intro e he; simp [stopContainers] at he
  | cons c rest ih =>
      intro e he
      by_cases hc : c.sandboxID = id
      · rcases hf : f c.id with e₀ | u
        · simp [stopContainers, hc, hf] at he
          simp [he, Ev.kind]
        · rcases hrest : stopContainers f id rest with ⟨t, r⟩
          simp [stopContainers, hc, hf, hrest] at he
          rcases he with he | he
          · simp [he, Ev.kind]
          · exact ih e (by simp [hrest, he])
      · simp only [stopContainers, if_neg hc] at he
        exact ih e he

/-- Every event the infra-container stop emits is a task-wait, exit-monitor
registration, kill, bounded-wait or exit-handler call. -/
theorem kinds_stopSandboxContainer (env : InfraEnv) (sb : Sandbox) :
    ∀ e ∈ (stopSandboxContainer env sb).1, e.kind ∈ ([3, 4, 5, 6, 7] : List Nat) := by
  have hkw : ∀ t : TaskHandle, ∀ e ∈ (sandboxKillWait env sb t).1,
      e.kind ∈ ([3, 4, 5, 6, 7] : List Nat) := by
    intro t e he
    rcases hk : t.killResult with e₀ | u
    · rcases hnf : isNotFound e₀
      · simp [sandboxKillWait, hk, hnf] at he
        simp [he, Ev.kind]
      · simp [sandboxKillWait, hk, hnf] at he
        rcases he with he | he <;> simp [he, Ev.kind]
    · simp [sandboxKillWait, hk] at he
      rcases he with he | he <;> simp [he, Ev.kind]
  intro e he
  rcases ht : env.taskResult with e₀ | task
  · rcases hnf : isNotFound e₀
    · simp [stopSandboxContainer, ht, hnf] at he
    · by_cases hs : sb.state = .unknown <;>
        simp [stopSandboxContainer, ht, hnf, hs, cleanupUnknownSandbox] at he
      simp [he, Ev.kind]
  · by_cases hs : sb.state = .unknown
    · rcases hw : task.waitResult with e₁ | u
      · rcases hnf : isNotFound e₁
        · simp [stopSandboxContainer, ht, hs, hw, hnf] at he
          simp [he, Ev.kind]
        · simp [stopSandboxContainer, ht, hs, hw, hnf, cleanupUnknownSandbox] at he
          rcases he with he | he <;> simp [he, Ev.kind]
      · rcases hkw2 : sandboxKillWait env sb task with ⟨t2, r2⟩
        simp [stopSandboxContainer, ht, hs, hw, hkw2] at he
        rcases he with he | he | he
        · simp [he, Ev.kind]
        · simp [he, Ev.kind]
        · exact hkw task e (by simp [hkw2, he])
    · simp only [stopSandboxContainer, ht, if_neg hs] at he
      exact hkw task e he

/-- Every event the network phase emits is a closed-query, teardown call,
plugin remove or namespace removal. -/
theorem kinds_netPhase (env : StopEnv) (sb : Sandbox) :
    ∀ e ∈ (netPhase env sb).1, e.kind ∈ ([8, 9, 10, 11] : List Nat) := by
  intro e he
  rcases hns : sb.netNS with _ | ns
  · simp [netPhase, hns] at he
  · rcases hc : ns.closedResult with e₀ | closed
    · simp [netPhase, hns, hc] at he
      simp [he, Ev.kind]
    · rcases hp : env.netPlugin with _ | p
      · simp [netPhase, hns, hc, teardownPod, hp] at he
        rcases he with he | he <;> simp [he, Ev.kind]
      · rcases hpr : p.removeResult sb.id (if closed then "" else sb.netNSPath) with e₁ | u
        · simp [netPhase, hns, hc, teardownPod, hp, hpr] at he
          rcases he with he | he | he <;> simp [he, Ev.kind]
        · rcases hrr : ns.removeResult with e₂ | u₂ <;>
            simp [netPhase, hns, hc, teardownPod, hp, hpr, hrr] at he <;>
            rcases he with he | he | he | he <;> simp [he, Ev.kind]

/-- When every container owned by the sandbox stops cleanly, the container
loop stops exactly the owned containers, in listing order, with a zero
grace period, and succeeds. -/
theorem stopContainers_ok (f : String → Except GoErr Unit) (id : String) :
    ∀ cs : List ContainerRec, (∀ c ∈ cs, c.sandboxID = id → f c.id = .ok ()) →
      stopContainers f id cs =
        ((cs.filter (fun c => c.sandboxID == id)).map (fun c => Ev.stopContainer c.id 0),
         .ok ()) := by
  intro cs
  induction cs with
  | nil => intro _; simp [stopContainers]
  | cons c rest ih =>
      intro h
      by_cases hc : c.sandboxID = id
      · have hf : f c.id = .ok () := h c (by simp) hc
        have hrest := ih (fun c' hc' => h c' (by simp [hc']))
        simp [stopContainers, hc, hf, hrest]
      · have hrest := ih (fun c' hc' => h c' (by simp [hc']))
        simp [stopContainers, hc, hrest]

/-- The first failing container stop aborts the loop: containers before it
that the sandbox owns are stopped, the failing stop is attempted, nothing
after it is attempted, and the error comes back wrapped with the failing
container's ID. -/
theorem stopContainers_fail (f : String → Except GoErr Unit) (id : String) :
    ∀ (pre : List ContainerRec) (c : ContainerRec) (rest : List ContainerRec) (e : GoErr),
      (∀ c' ∈ pre, c'.sandboxID = id → f c'.id = .ok ()) →
      c.sandboxID = id → f c.id = .error e →
      stopContainers f id (pre ++ c :: rest) =
        ((pre.filter (fun c' => c'.sandboxID == id)).map (fun c' => Ev.stopContainer c'.id 0)
           ++ [.stopContainer c.id 0],
         .error (.wrap ("failed to stop container \"" ++ c.id ++ "\"") e)) := by
  intro pre
  induction pre with
  | nil =>
      intro c rest e _ hc hf
      simp [stopContainers, hc, hf]
  | cons p ps ih =>
      intro c rest e h hc hf
      have hrest := ih c rest e (fun c' hc' => h c' (by simp [hc'])) hc hf
      by_cases hp : p.sandboxID = id
      · have hfp : f p.id = .ok () := h p (by simp) hp
        simp [stopContainers, hp, hfp, hrest]
      · simp [stopContainers, hp, hrest]

/-- A sandbox owning no network-namespace resource makes the network phase
a silent no-op. -/
theorem netPhase_none (env : StopEnv) (sb : Sandbox) (h : sb.netNS = none) :
    netPhase env sb = ([], .ok (), sb) := by
  simp [netPhase, h]

/-- The network phase either leaves the sandbox record untouched or only
clears its namespace-resource reference. -/
theorem netPhase_post (env : StopEnv) (sb : Sandbox) :
    (netPhase env sb).2.2 = sb ∨ (netPhase env sb).2.2 = { sb with netNS := none } := by
  rcases hns : sb.netNS with _ | ns
  · simp [netPhase, hns]
  · rcases hc : ns.closedResult with e₀ | closed
    · simp [netPhase, hns, hc]
    · rcases hp : env.netPlugin with _ | p
      · simp [netPhase, hns, hc, teardownPod, hp]
      · rcases hpr : p.removeResult sb.id (if closed then "" else sb.netNSPath) with e₁ | u
        · simp [netPhase, hns, hc, teardownPod, hp, hpr]
        · rcases hrr : ns.removeResult with e₂ | u₂ <;>
            simp [netPhase, hns, hc, teardownPod, hp, hpr, hrr]

/-- When the sandbox owns a namespace resource and the closed query answers,
the network phase performs exactly one teardown call, with the empty path
exactly when the namespace reported closed. -/
theorem netPhase_teardown_path (env : StopEnv) (sb : Sandbox) (ns : NetNS) (b : Bool)
    (hns : sb.netNS = some ns) (hc : ns.closedResult = .ok b) :
    (netPhase env sb).1.filter (fun e => e.kind == 9) =
      [.teardownPodCall sb.id (if b then "" else sb.netNSPath)] := by
  rcases hp : env.netPlugin with _ | p
  · simp [netPhase, hns, hc, teardownPod, hp, List.filter, Ev.kind]
  · rcases hpr : p.removeResult sb.id (if b then "" else sb.netNSPath) with e₁ | u
    · simp [netPhase, hns, hc, teardownPod, hp, hpr, List.filter, Ev.kind]
    · rcases hrr : ns.removeResult with e₂ | u₂ <;>
        simp [netPhase, hns, hc, teardownPod, hp, hpr, hrr, List.filter, Ev.kind]

/-- A successful network phase on a sandbox that owns a namespace resource
clears the resource reference and its result can only arise from the final
branch. -/
theorem netPhase_some_ok (env : StopEnv) (sb : Sandbox) (ns : NetNS)
    (hns : sb.netNS = some ns) (hok : (netPhase env sb).2.1 = .ok ()) :
    (netPhase env sb).2.2 = { sb with netNS := none } ∧
    (∃ b, ns.closedResult = .ok b) := by
  rcases hc : ns.closedResult with e₀ | closed
  · simp [netPhase, hns, hc] at hok
  · rcases hp : env.netPlugin with _ | p
    · simp [netPhase, hns, hc, teardownPod, hp] at hok
    · rcases hpr : p.removeResult sb.id (if closed then "" else sb.netNSPath) with e₁ | u
      · simp [netPhase, hns, hc, teardownPod, hp, hpr] at hok
      · rcases hrr : ns.removeResult with e₂ | u₂
        · simp [netPhase, hns, hc, teardownPod, hp, hpr, hrr] at hok
        · refine ⟨?_, ⟨closed, by simp [hc]⟩⟩
          simp [netPhase, hns, hc, teardownPod, hp, hpr, hrr]

/-- Filtering a trace for a call kind none of its events has yields nothing. -/
theorem filter_kind_nil (k : Nat) (l : List Ev) (h : ∀ e ∈ l, e.kind ≠ k) :
    l.filter (fun e => e.kind == k) = [] :=
  List.filter_eq_nil_iff.mpr (by intro a ha; simpa using h a ha)

/-- A failing unmount aborts the post-container phases with a wrapped error
and no further calls. -/
theorem afterContainers_unmount_fail (env : StopEnv) (sb : Sandbox) (e : GoErr)
    (h : env.unmountResult = .error e) :
    afterContainers env sb =
      ([.unmountFiles sb.id], .error (.wrap "failed to unmount sandbox files" e), sb) := by
  simp [afterContainers, h]

/-- On an already-NotReady sandbox the post-container phases skip the
infra-container stop entirely and go straight to the network phase. -/
theorem afterContainers_notReady (env : StopEnv) (sb : Sandbox)
    (h2 : env.unmountResult = .ok ()) (hs : sb.state = .notReady) :
    afterContainers env sb =
      (.unmountFiles sb.id :: (netPhase env sb).1,
       (netPhase env sb).2.1, (netPhase env sb).2.2) := by
  rcases hnp : netPhase env sb with ⟨tn, rn, sb2⟩
  simp [afterContainers, h2, hs, hnp]

/-- On a Ready or Unknown sandbox whose infra-container stop succeeds, the
post-container phases run the infra stop and then the network phase. -/
theorem afterContainers_invoked_ok (env : StopEnv) (sb : Sandbox)
    (h2 : env.unmountResult = .ok ()) (hs : sb.state = .ready ∨ sb.state = .unknown)
    (hi : (stopSandboxContainer env.infra sb).2 = .ok ()) :
    afterContainers env sb =
      (.unmountFiles sb.id :: .stopSandboxContainerCall sb.id ::
         ((stopSandboxContainer env.infra sb).1 ++ (netPhase env sb).1),
       (netPhase env sb).2.1, (netPhase env sb).2.2) := by
  rcases hsc : stopSandboxContainer env.infra sb with ⟨ti, ri⟩
  rcases hnp : netPhase env sb with ⟨tn, rn, sb2⟩
  rcases hs with hs | hs <;>
    · rw [hsc] at hi
      simp at hi
      simp [afterContainers, h2, hs, hsc, hi, hnp]

/-- On a Ready or Unknown sandbox whose infra-container stop fails, the
post-container phases abort with the wrapped error and do not reach the
network phase. -/
theorem afterContainers_invoked_fail (env : StopEnv) (sb : Sandbox) (e : GoErr)
    (h2 : env.unmountResult = .ok ()) (hs : sb.state = .ready ∨ sb.state = .unknown)
    (hi : (stopSandboxContainer env.infra sb).2 = .error e) :
    afterContainers env sb =
      (.unmountFiles sb.id :: .stopSandboxContainerCall sb.id ::
         (stopSandboxContainer env.infra sb).1,
       .error (.wrap ("failed to stop sandbox container \"" ++ sb.id ++
         "\" in \"" ++ sb.state.str ++ "\" state") e),
       sb) := by
  rcases hsc : stopSandboxContainer env.infra sb with ⟨ti, ri⟩
  rcases hs with hs | hs <;>
    · rw [hsc] at hi
      simp at hi
      simp [afterContainers, h2, hs, hsc, hi]

/-- When the container loop succeeds, the whole call is the loop's trace
followed by the post-container phases. -/
theorem stopPodSandbox_ctr_ok (env : StopEnv) (sb : Sandbox)
    (h : (stopContainers env.stopContainerResult sb.id env.containers).2 = .ok ()) :
    stopPodSandbox env sb =
      ((stopContainers env.stopContainerResult sb.id env.containers).1 ++
         (afterContainers env sb).1,
       (afterContainers env sb).2.1, (afterContainers env sb).2.2) := by
  rcases hctr : stopContainers env.stopContainerResult sb.id env.containers with ⟨t, r⟩
  rcases hic : afterContainers env sb with ⟨t2, r2, sb2⟩
  rw [hctr] at h
  simp at h
  simp [stopPodSandbox, hctr, h, hic]

/-- When the container loop fails, the whole call returns its trace and
error unchanged and performs nothing else. -/
theorem stopPodSandbox_ctr_fail (env : StopEnv) (sb : Sandbox) (e : GoErr)
    (h : (stopContainers env.stopContainerResult sb.id env.containers).2 = .error e) :
    stopPodSandbox env sb =
      ((stopContainers env.stopContainerResult sb.id env.containers).1, .error e, sb) := by
  rcases hctr : stopContainers env.stopContainerResult sb.id env.containers with ⟨t, r⟩
  rw [hctr] at h
  simp at h
  simp [stopPodSandbox, hctr, h]

/-- No event of the post-container phases is a container-stop call. -/
theorem kinds_afterContainers (env : StopEnv) (sb : Sandbox) :
    ∀ e ∈ (afterContainers env sb).1, e.kind ≠ 0 := by
  intro e he
  rcases hu : env.unmountResult with e₀ | u
  · rw [afterContainers_unmount_fail env sb e₀ hu] at he
    simp at he
    simp [he, Ev.kind]
  · by_cases hs : sb.state = .ready ∨ sb.state = .unknown
    · rcases hi : (stopSandboxContainer env.infra sb).2 with e₁ | u₁
      · rw [afterContainers_invoked_fail env sb e₁ hu hs hi] at he
        simp at he
        rcases he with he | he | he
        · simp [he, Ev.kind]
        · simp [he, Ev.kind]
        · have := kinds_stopSandboxContainer env.infra sb e he
          simp at this
          rcases this with h | h | h | h | h <;> simp [h]
      · rw [afterContainers_invoked_ok env sb hu hs (by simp [hi])] at he
        simp at he
        rcases he with he | he | he | he
        · simp [he, Ev.kind]
        · simp [he, Ev.kind]
        · have := kinds_stopSandboxContainer env.infra sb e he
          simp at this
          rcases this with h | h | h | h | h <;> simp [h]
        · have := kinds_netPhase env sb e he
          simp at this
          rcases this with h | h | h | h <;> simp [h]
    · have hnr : sb.state = .notReady := by
        rcases hst : sb.state with _ | _ | _ <;> simp_all
      rw [afterContainers_notReady env sb hu hnr] at he
      simp at he
      rcases he with he | he
      · simp [he, Ev.kind]
      · have := kinds_netPhase env sb e he
        simp at this
        rcases this with h | h | h | h <;> simp [h]

/-- A lifecycle state that is neither Ready nor Unknown is NotReady. -/
theorem notReady_of_not_ready_unknown (s : SandboxState)
    (h : ¬(s = .ready ∨ s = .unknown)) : s = .notReady := by
  rcases s with _ | _ | _ <;> simp_all

/-- Default declared config used by concrete instantiations. -/
def cfg0 : PodSandboxConfig := { portMappings := [80] }

/-- Exit handler oracle used by concrete instantiations. -/
def handle0 : TaskExit → Except GoErr Unit := fun _ => .ok ()

/-- Namespace resource whose closed query answers "open" and whose removal
succeeds, used by concrete instantiations. -/
def ns0 : NetNS := { closedResult := .ok false, removeResult := .ok () }

/-- Network plugin whose remove operation succeeds, used by concrete
instantiations. -/
def plugin0 : NetPlugin := { removeResult := fun _ _ => .ok () }

/-- Live task whose wait and kill succeed, used by concrete
instantiations. -/
def task0 : TaskHandle := { pid := 7, waitResult := .ok (), killResult := .ok () }

/-- Infra environment with a live task and a stopped signal that wins the
bounded wait, used by concrete instantiations. -/
def infra0 : InfraEnv :=
  { taskResult := .ok task0, handle := handle0, now := 5,
    ctxErr := .canceled, waitFirst := .stopped }

/-- Infra environment whose task query reports not-found, used by concrete
instantiations. -/
def infraNF : InfraEnv :=
  { taskResult := .error .notFound, handle := handle0, now := 5,
    ctxErr := .canceled, waitFirst := .stopped }

/-- Sandbox in Unknown state with no namespace resource, used by concrete
instantiations. -/
def sbUnknown : Sandbox :=
  { id := "sb1", config := cfg0, state := .unknown, netNS := none, netNSPath := "/ns/sb1" }

/-- Sandbox in Ready state owning an open namespace resource, used by
concrete instantiations. -/
def sbReadyNS : Sandbox :=
  { id := "sb1", config := cfg0, state := .ready, netNS := some ns0, netNSPath := "/ns/sb1" }

/-- Sandbox in NotReady state owning an open namespace resource, used by
concrete instantiations. -/
def sbNotReadyNS : Sandbox :=
  { id := "sb1", config := cfg0, state := .notReady, netNS := some ns0, netNSPath := "/ns/sb1" }

/-- Stop environment where every collaborator call succeeds: two containers
listed, one owned by sandbox "sb1", used by concrete instantiations. -/
def stopEnv0 : StopEnv :=
  { containers := [{ id := "c1", sandboxID := "sb1" }, { id := "c2", sandboxID := "other" }],
    stopContainerResult := fun _ => .ok (),
    unmountResult := .ok (),
    netPlugin := some plugin0,
    infra := infra0 }

/-- C2: for every sandbox and timeout, `waitSandboxStop` races exactly the
three events modelled by `WaitEvent` — caller cancellation, timer expiry
after the timeout, and the one-shot stopped signal — and maps each winner
to its own outcome: a cancellation error carrying the sandbox ID, a timeout
error carrying the sandbox ID, or success; the three outcomes are pairwise
distinct, so exactly one occurs. -/
theorem waitSandboxStop_three_outcomes (sandboxID : String) (timeout : Nat) (ctxErr : GoErr) :
    waitSandboxStop sandboxID timeout ctxErr .ctxDone =
      .error (.wrap ("wait sandbox container \"" ++ sandboxID ++ "\" is cancelled") ctxErr) ∧
    waitSandboxStop sandboxID timeout ctxErr .timerFired =
      .error (.msg ("wait sandbox container \"" ++ sandboxID ++ "\" stop timeout")) ∧
    waitSandboxStop sandboxID timeout ctxErr .stopped = .ok () ∧
    waitSandboxStop sandboxID timeout ctxErr .ctxDone ≠
      waitSandboxStop sandboxID timeout ctxErr .timerFired ∧
    waitSandboxStop sandboxID timeout ctxErr .timerFired ≠
      waitSandboxStop sandboxID timeout ctxErr .stopped ∧
    waitSandboxStop sandboxID timeout ctxErr .ctxDone ≠
      waitSandboxStop sandboxID timeout ctxErr .stopped := by
  refine ⟨rfl, rfl, rfl, ?_, ?_, ?_⟩ <;> simp [waitSandboxStop]

/-- C5: the Unknown-State Reconciler synthesizes exactly one synthetic
task-exit event whose container ID and ID both equal the sandbox ID, whose
pid is 0, whose exit status is the sentinel unknown exit code and whose
timestamp is the current time, and returns the result of feeding that event
to the exit-handling function used for live exit events. -/
theorem cleanupUnknownSandbox_synthesizes (handle : TaskExit → Except GoErr Unit)
    (now : Nat) (id : String) :
    (cleanupUnknownSandbox handle now id).1 =
      [.handleSandboxExitEv ⟨id, id, 0, unknownExitCode, now⟩] ∧
    (cleanupUnknownSandbox handle now id).2 =
      handle ⟨id, id, 0, unknownExitCode, now⟩ :=
  ⟨rfl, rfl⟩

/-- C4: when the task query reports not-found, `stopSandboxContainer`
returns the Unknown-State Reconciler's result if the lifecycle state is
Unknown and otherwise succeeds as a no-op; any other task-query error is
returned wrapped. -/
theorem stopSandboxContainer_task_notfound (env : InfraEnv) (sb : Sandbox) (e : GoErr)
    (ht : env.taskResult = .error e) :
    (isNotFound e = true → sb.state = .unknown →
       stopSandboxContainer env sb = cleanupUnknownSandbox env.handle env.now sb.id) ∧
    (isNotFound e = true → sb.state ≠ .unknown →
       stopSandboxContainer env sb = ([], .ok ())) ∧
    (isNotFound e = false →
       stopSandboxContainer env sb =
         ([], .error (.wrap "failed to get sandbox container" e))) := by
  refine ⟨?_, ?_, ?_⟩
  · intro hnf hs
    simp [stopSandboxContainer, ht, hnf, hs]
  · intro hnf hs
    simp [stopSandboxContainer, ht, hnf, hs]
  · intro hnf
    simp [stopSandboxContainer, ht, hnf]

/-- Instantiation of the C4 theorem: a not-found task query on an
Unknown-state sandbox routes to the reconciler. -/
theorem stopSandboxContainer_task_notfound_witness :
    stopSandboxContainer infraNF sbUnknown = cleanupUnknownSandbox handle0 5 "sb1" :=
  (stopSandboxContainer_task_notfound infraNF sbUnknown .notFound rfl).1 rfl rfl

/-- C3: on an Unknown-state sandbox whose task exists,
`stopSandboxContainer` establishes the exit-stream subscription (the task
wait plus the exit-monitor registration) strictly before any kill: when the
subscription succeeds the trace is the two subscription events followed by
the kill-and-wait tail, whose first event is the kill, and when the
subscription fails no kill is sent at all. -/
theorem stopSandboxContainer_subscribe_before_kill (env : InfraEnv) (sb : Sandbox)
    (t : TaskHandle) (hs : sb.state = .unknown) (ht : env.taskResult = .ok t) :
    (t.waitResult = .ok () →
       (stopSandboxContainer env sb).1 =
         .taskWait sb.id :: .startExitMonitor sb.id t.pid :: (sandboxKillWait env sb t).1 ∧
       (sandboxKillWait env sb t).1.head? = some (.kill sb.id 9)) ∧
    (∀ e, t.waitResult = .error e →
       (stopSandboxContainer env sb).1.filter (fun ev => ev.kind == 5) = []) := by
  constructor
  · intro hw
    constructor
    · rcases hkw : sandboxKillWait env sb t with ⟨tk, rk⟩
      simp [stopSandboxContainer, ht, hs, hw, hkw]
    · rcases hk : t.killResult with e₀ | u
      · rcases hnf : isNotFound e₀ <;> simp [sandboxKillWait, hk, hnf]
      · simp [sandboxKillWait, hk]
  · intro e hw
    rcases hnf : isNotFound e
    · simp [stopSandboxContainer, ht, hs, hw, hnf, List.filter_cons, Ev.kind]
    · simp [stopSandboxContainer, ht, hs, hw, hnf, cleanupUnknownSandbox,
        List.filter_cons, Ev.kind]

/-- Instantiation of the C3 theorem: with a live task on an Unknown-state
sandbox, the subscription events precede the kill. -/
theorem stopSandboxContainer_subscribe_before_kill_witness :
    (stopSandboxContainer infra0 sbUnknown).1 =
      .taskWait "sb1" :: .startExitMonitor "sb1" 7 ::
        (sandboxKillWait infra0 sbUnknown task0).1 ∧
    (sandboxKillWait infra0 sbUnknown task0).1.head? = some (.kill "sb1" 9) :=
  (stopSandboxContainer_subscribe_before_kill infra0 sbUnknown task0 rfl rfl).1 rfl

/-- The container loop's trace never contains a call of any other kind. -/
theorem stopContainers_filter_nil (f : String → Except GoErr Unit) (id : String)
    (cs : List ContainerRec) (k : Nat) (hk : k ≠ 0) :
    (stopContainers f id cs).1.filter (fun e => e.kind == k) = [] :=
  filter_kind_nil k _ (by
    intro e he
    have := kinds_stopContainers f id cs e he
    omega)

/-- When the unmount succeeds and the infra stop succeeds whenever invoked,
the post-container phases return the network phase's result and final
sandbox, and contribute no network-kind calls beyond the network phase's
own. -/
theorem afterContainers_net_transparent (env : StopEnv) (sb : Sandbox)
    (h2 : env.unmountResult = .ok ())
    (h3 : (sb.state = .ready ∨ sb.state = .unknown) →
       (stopSandboxContainer env.infra sb).2 = .ok ()) :
    (afterContainers env sb).2.1 = (netPhase env sb).2.1 ∧
    (afterContainers env sb).2.2 = (netPhase env sb).2.2 ∧
    ∀ k, 8 ≤ k → (afterContainers env sb).1.filter (fun e => e.kind == k) =
      (netPhase env sb).1.filter (fun e => e.kind == k) := by
  by_cases hs : sb.state = .ready ∨ sb.state = .unknown
  · rw [afterContainers_invoked_ok env sb h2 hs (h3 hs)]
    refine ⟨rfl, rfl, ?_⟩
    intro k hk
    have hum : ((Ev.unmountFiles sb.id).kind == k) = false := by
      simp [Ev.kind]; omega
    have hca : ((Ev.stopSandboxContainerCall sb.id).kind == k) = false := by
      simp [Ev.kind]; omega
    have hinf : (stopSandboxContainer env.infra sb).1.filter (fun e => e.kind == k) = [] :=
      filter_kind_nil k _ (by
        intro e he
        have := kinds_stopSandboxContainer env.infra sb e he
        simp at this
        rcases this with h | h | h | h | h <;> omega)
    simp [List.filter_cons, hum, hca, List.filter_append, hinf]
  · rw [afterContainers_notReady env sb h2 (notReady_of_not_ready_unknown sb.state hs)]
    refine ⟨rfl, rfl, ?_⟩
    intro k hk
    have hum : ((Ev.unmountFiles sb.id).kind == k) = false := by
      simp [Ev.kind]; omega
    simp [List.filter_cons, hum]

/-- A successful post-container phase pins down each of its steps: the
unmount succeeded, the infra stop succeeded whenever it was invoked, and
the network phase succeeded. -/
theorem afterContainers_ok_parts (env : StopEnv) (sb : Sandbox)
    (hok : (afterContainers env sb).2.1 = .ok ()) :
    env.unmountResult = .ok () ∧
    ((sb.state = .ready ∨ sb.state = .unknown) →
       (stopSandboxContainer env.infra sb).2 = .ok ()) ∧
    (netPhase env sb).2.1 = .ok () := by
  rcases hu : env.unmountResult with e₀ | u₀
  · rw [afterContainers_unmount_fail env sb e₀ hu] at hok
    simp at hok
  · cases u₀
    by_cases hs : sb.state = .ready ∨ sb.state = .unknown
    · rcases hi : (stopSandboxContainer env.infra sb).2 with e₁ | u₁
      · rw [afterContainers_invoked_fail env sb e₁ hu hs hi] at hok
        simp at hok
      · cases u₁
        rw [afterContainers_invoked_ok env sb hu hs hi] at hok
        exact ⟨rfl, fun _ => rfl, hok⟩
    · rw [afterContainers_notReady env sb hu (notReady_of_not_ready_unknown sb.state hs)] at hok
      exact ⟨rfl, fun h => absurd h hs, hok⟩

/-- A successful whole call pins down the container loop and the
post-container phases, and its final sandbox is that of the latter. -/
theorem stopPodSandbox_ok_parts (env : StopEnv) (sb : Sandbox)
    (hok : (stopPodSandbox env sb).2.1 = .ok ()) :
    (stopContainers env.stopContainerResult sb.id env.containers).2 = .ok () ∧
    (afterContainers env sb).2.1 = .ok () ∧
    (stopPodSandbox env sb).2.2 = (afterContainers env sb).2.2 := by
  rcases hctr : stopContainers env.stopContainerResult sb.id env.containers with ⟨t, r⟩
  rcases r with e | u
  · have hc2 : (stopContainers env.stopContainerResult sb.id env.containers).2 = .error e := by
      rw [hctr]
    rw [stopPodSandbox_ctr_fail env sb e hc2] at hok
    simp at hok
  · cases u
    have hc2 : (stopContainers env.stopContainerResult sb.id env.containers).2 = .ok () := by
      rw [hctr]
    rw [stopPodSandbox_ctr_ok env sb hc2] at hok
    exact ⟨rfl, hok, by rw [stopPodSandbox_ctr_ok env sb hc2]⟩

/-- A successful network phase leaves no namespace resource on the final
sandbox record. -/
theorem netPhase_ok_post_none (env : StopEnv) (sb : Sandbox)
    (hok : (netPhase env sb).2.1 = .ok ()) :
    (netPhase env sb).2.2.netNS = none := by
  rcases hns : sb.netNS with _ | ns
  · rw [netPhase_none env sb hns]
    exact hns
  · rw [(netPhase_some_ok env sb ns hns hok).1]

/-- On an already-NotReady sandbox with a clean container loop and unmount,
the whole call is the owned-container stops, the unmount, and the network
phase. -/
theorem stopPodSandbox_notReady_shape (env : StopEnv) (sb : Sandbox)
    (h1 : ∀ c ∈ env.containers, c.sandboxID = sb.id → env.stopContainerResult c.id = .ok ())
    (h2 : env.unmountResult = .ok ()) (hs : sb.state = .notReady) :
    stopPodSandbox env sb =
      ((env.containers.filter (fun c => c.sandboxID == sb.id)).map
          (fun c => Ev.stopContainer c.id 0)
         ++ .unmountFiles sb.id :: (netPhase env sb).1,
       (netPhase env sb).2.1, (netPhase env sb).2.2) := by
  have hctr := stopContainers_ok env.stopContainerResult sb.id env.containers h1
  rw [stopPodSandbox_ctr_ok env sb (by rw [hctr]),
    afterContainers_notReady env sb h2 hs, hctr]

/-- Namespace resource whose closed query answers "closed", used by
concrete instantiations. -/
def nsClosed : NetNS := { closedResult := .ok true, removeResult := .ok () }

/-- Namespace resource whose closed query itself fails, used by concrete
instantiations. -/
def nsQErr : NetNS := { closedResult := .error (.msg "stat failed"), removeResult := .ok () }

/-- Ready sandbox owning a namespace resource that reports closed, used by
concrete instantiations. -/
def sbReadyClosed : Sandbox :=
  { id := "sb1", config := cfg0, state := .ready, netNS := some nsClosed, netNSPath := "/ns/sb1" }

/-- Ready sandbox whose namespace closed query fails, used by concrete
instantiations. -/
def sbReadyQErr : Sandbox :=
  { id := "sb1", config := cfg0, state := .ready, netNS := some nsQErr, netNSPath := "/ns/sb1" }

/-- Stop environment identical to `stopEnv0` but with no network plugin
configured, used by concrete instantiations. -/
def stopEnvNoPlugin : StopEnv :=
  { containers := [{ id := "c1", sandboxID := "sb1" }],
    stopContainerResult := fun _ => .ok (),
    unmountResult := .ok (),
    netPlugin := none,
    infra := infra0 }

/-- C7: when the sandbox owns a network-namespace resource and earlier
steps succeed, the whole call performs exactly one network-teardown
invocation, with the empty namespace path when the resource reports closed
and with the resource's recorded filesystem path otherwise. -/
theorem stopPodSandbox_teardown_path (env : StopEnv) (sb : Sandbox) (ns : NetNS) (b : Bool)
    (h1 : ∀ c ∈ env.containers, c.sandboxID = sb.id → env.stopContainerResult c.id = .ok ())
    (h2 : env.unmountResult = .ok ())
    (h3 : (sb.state = .ready ∨ sb.state = .unknown) →
       (stopSandboxContainer env.infra sb).2 = .ok ())
    (hns : sb.netNS = some ns) (hc : ns.closedResult = .ok b) :
    (stopPodSandbox env sb).1.filter (fun e => e.kind == 9) =
      [.teardownPodCall sb.id (if b then "" else sb.netNSPath)] := by
  have hctr := stopContainers_ok env.stopContainerResult sb.id env.containers h1
  rw [stopPodSandbox_ctr_ok env sb (by rw [hctr]), List.filter_append,
    stopContainers_filter_nil env.stopContainerResult sb.id env.containers 9 (by omega),
    (afterContainers_net_transparent env sb h2 h3).2.2 9 (by omega),
    netPhase_teardown_path env sb ns b hns hc]
  simp

/-- Instantiation of the C7 theorem: the teardown path is the real path for
an open namespace and empty for a closed one. -/
theorem stopPodSandbox_teardown_path_witness :
    (stopPodSandbox stopEnv0 sbReadyNS).1.filter (fun e => e.kind == 9) =
      [.teardownPodCall "sb1" "/ns/sb1"] ∧
    (stopPodSandbox stopEnv0 sbReadyClosed).1.filter (fun e => e.kind == 9) =
      [.teardownPodCall "sb1" ""] :=
  ⟨stopPodSandbox_teardown_path stopEnv0 sbReadyNS ns0 false
      (by intro c _ _; rfl) rfl (fun _ => rfl) rfl rfl,
   stopPodSandbox_teardown_path stopEnv0 sbReadyClosed nsClosed true
      (by intro c _ _; rfl) rfl (fun _ => rfl) rfl rfl⟩

/-- C10: when the closed query on the owned namespace resource itself
fails, the whole call returns that error wrapped, performs no network
teardown, no plugin remove and no namespace removal, and leaves the sandbox
record (and its namespace resource) untouched. -/
theorem stopPodSandbox_closed_query_error (env : StopEnv) (sb : Sandbox) (ns : NetNS)
    (e : GoErr)
    (h1 : ∀ c ∈ env.containers, c.sandboxID = sb.id → env.stopContainerResult c.id = .ok ())
    (h2 : env.unmountResult = .ok ())
    (h3 : (sb.state = .ready ∨ sb.state = .unknown) →
       (stopSandboxContainer env.infra sb).2 = .ok ())
    (hns : sb.netNS = some ns) (hc : ns.closedResult = .error e) :
    (stopPodSandbox env sb).2.1 =
      .error (.wrap "failed to check network namespace closed" e) ∧
    (stopPodSandbox env sb).1.filter (fun ev => ev.kind == 9) = [] ∧
    (stopPodSandbox env sb).1.filter (fun ev => ev.kind == 10) = [] ∧
    (stopPodSandbox env sb).1.filter (fun ev => ev.kind == 11) = [] ∧
    (stopPodSandbox env sb).2.2 = sb := by
  have hnp : netPhase env sb =
      ([.netnsClosedQuery sb.id],
       .error (.wrap "failed to check network namespace closed" e), sb) := by
    simp [netPhase, hns, hc]
  have hctr := stopContainers_ok env.stopContainerResult sb.id env.containers h1
  have htr := afterContainers_net_transparent env sb h2 h3
  rw [stopPodSandbox_ctr_ok env sb (by rw [hctr])]
  refine ⟨?_, ?_, ?_, ?_, ?_⟩
  · rw [htr.1, hnp]
  · rw [List.filter_append,
      stopContainers_filter_nil env.stopContainerResult sb.id env.containers 9 (by omega),
      htr.2.2 9 (by omega), hnp]
    simp [Ev.kind]
  · rw [List.filter_append,
      stopContainers_filter_nil env.stopContainerResult sb.id env.containers 10 (by omega),
      htr.2.2 10 (by omega), hnp]
    simp [Ev.kind]
  · rw [List.filter_append,
      stopContainers_filter_nil env.stopContainerResult sb.id env.containers 11 (by omega),
      htr.2.2 11 (by omega), hnp]
    simp [Ev.kind]
  · rw [htr.2.1, hnp]

/-- Instantiation of the C10 theorem: a failing closed query aborts the
call before any teardown. -/
theorem stopPodSandbox_closed_query_error_witness :
    (stopPodSandbox stopEnv0 sbReadyQErr).2.1 =
      .error (.wrap "failed to check network namespace closed" (.msg "stat failed")) ∧
    (stopPodSandbox stopEnv0 sbReadyQErr).1.filter (fun ev => ev.kind == 9) = [] ∧
    (stopPodSandbox stopEnv0 sbReadyQErr).1.filter (fun ev => ev.kind == 10) = [] ∧
    (stopPodSandbox stopEnv0 sbReadyQErr).1.filter (fun ev => ev.kind == 11) = [] ∧
    (stopPodSandbox stopEnv0 sbReadyQErr).2.2 = sbReadyQErr :=
  stopPodSandbox_closed_query_error stopEnv0 sbReadyQErr nsQErr (.msg "stat failed")
    (by intro c _ _; rfl) rfl (fun _ => rfl) rfl rfl

/-- C9: with no network plugin configured, `teardownPod` returns the
configuration error without calling any plugin, and the whole call fails
with that error wrapped with the sandbox ID, never invoking a plugin
remove. -/
theorem stopPodSandbox_no_plugin (env : StopEnv) (sb : Sandbox) (ns : NetNS) (b : Bool)
    (h1 : ∀ c ∈ env.containers, c.sandboxID = sb.id → env.stopContainerResult c.id = .ok ())
    (h2 : env.unmountResult = .ok ())
    (h3 : (sb.state = .ready ∨ sb.state = .unknown) →
       (stopSandboxContainer env.infra sb).2 = .ok ())
    (hns : sb.netNS = some ns) (hc : ns.closedResult = .ok b)
    (hp : env.netPlugin = none) :
    (∀ (id path : String) (cfg : PodSandboxConfig),
       teardownPod none id path cfg = ([], .error (.msg "cni config not initialized"))) ∧
    (stopPodSandbox env sb).2.1 =
      .error (.wrap ("failed to destroy network for sandbox \"" ++ sb.id ++ "\"")
        (.msg "cni config not initialized")) ∧
    (stopPodSandbox env sb).1.filter (fun ev => ev.kind == 10) = [] := by
  have hnp : netPhase env sb =
      ([.netnsClosedQuery sb.id, .teardownPodCall sb.id (if b then "" else sb.netNSPath)],
       .error (.wrap ("failed to destroy network for sandbox \"" ++ sb.id ++ "\"")
         (.msg "cni config not initialized")), sb) := by
    simp [netPhase, hns, hc, teardownPod, hp]
  have hctr := stopContainers_ok env.stopContainerResult sb.id env.containers h1
  have htr := afterContainers_net_transparent env sb h2 h3
  refine ⟨fun _ _ _ => rfl, ?_, ?_⟩
  · rw [stopPodSandbox_ctr_ok env sb (by rw [hctr]), htr.1, hnp]
  · rw [stopPodSandbox_ctr_ok env sb (by rw [hctr]), List.filter_append,
      stopContainers_filter_nil env.stopContainerResult sb.id env.containers 10 (by omega),
      htr.2.2 10 (by omega), hnp]
    simp [Ev.kind]

/-- Instantiation of the C9 theorem: the configuration error surfaces as
the call's failure. -/
theorem stopPodSandbox_no_plugin_witness :
    (∀ (id path : String) (cfg : PodSandboxConfig),
       teardownPod none id path cfg = ([], .error (.msg "cni config not initialized"))) ∧
    (stopPodSandbox stopEnvNoPlugin sbReadyNS).2.1 =
      .error (.wrap ("failed to destroy network for sandbox \"sb1\"")
        (.msg "cni config not initialized")) ∧
    (stopPodSandbox stopEnvNoPlugin sbReadyNS).1.filter (fun ev => ev.kind == 10) = [] :=
  stopPodSandbox_no_plugin stopEnvNoPlugin sbReadyNS ns0 false
    (by intro c _ _; rfl) rfl (fun _ => rfl) rfl rfl rfl

/-- C8: the whole call stops exactly the containers whose owning-sandbox ID
equals the sandbox's ID, sequentially with a zero grace period, and the
first container-stop failure aborts the call, returning the error wrapped
with that container's ID and attempting no further stop. -/
theorem stopPodSandbox_container_loop (env : StopEnv) (sb : Sandbox) :
    ((∀ c ∈ env.containers, c.sandboxID = sb.id → env.stopContainerResult c.id = .ok ()) →
       (stopPodSandbox env sb).1.filter (fun e => e.kind == 0) =
         (env.containers.filter (fun c => c.sandboxID == sb.id)).map
           (fun c => Ev.stopContainer c.id 0)) ∧
    (∀ (pre : List ContainerRec) (c : ContainerRec) (rest : List ContainerRec) (e : GoErr),
       env.containers = pre ++ c :: rest →
       (∀ c' ∈ pre, c'.sandboxID = sb.id → env.stopContainerResult c'.id = .ok ()) →
       c.sandboxID = sb.id → env.stopContainerResult c.id = .error e →
       stopPodSandbox env sb =
         ((pre.filter (fun c' => c'.sandboxID == sb.id)).map
             (fun c' => Ev.stopContainer c'.id 0) ++ [.stopContainer c.id 0],
          .error (.wrap ("failed to stop container \"" ++ c.id ++ "\"") e), sb)) := by
  constructor
  · intro h1
    have hctr := stopContainers_ok env.stopContainerResult sb.id env.containers h1
    rw [stopPodSandbox_ctr_ok env sb (by rw [hctr]), List.filter_append,
      filter_kind_nil 0 _ (kinds_afterContainers env sb)]
    have hctr1 : (stopContainers env.stopContainerResult sb.id env.containers).1 =
        (env.containers.filter (fun c => c.sandboxID == sb.id)).map
          (fun c => Ev.stopContainer c.id 0) := by rw [hctr]
    rw [hctr1, List.append_nil]
    apply List.filter_eq_self.mpr
    intro a ha
    simp only [List.mem_map] at ha
    rcases ha with ⟨c, -, rfl⟩
    simp [Ev.kind]
  · intro pre c rest e hcs hpre hc hf
    have hfail := stopContainers_fail env.stopContainerResult sb.id pre c rest e hpre hc hf
    have h2 : (stopContainers env.stopContainerResult sb.id env.containers).2 =
        .error (.wrap ("failed to stop container \"" ++ c.id ++ "\"") e) := by
      rw [hcs, hfail]
    rw [stopPodSandbox_ctr_fail env sb _ h2, hcs, hfail]

/-- Instantiation of the C8 theorem: a clean loop stops exactly the owned
container, and a failing stop aborts with the wrapped error. -/
theorem stopPodSandbox_container_loop_witness :
    (stopPodSandbox stopEnv0 sbReadyNS).1.filter (fun e => e.kind == 0) =
      [.stopContainer "c1" 0] ∧
    stopPodSandbox
        { containers := [{ id := "c0", sandboxID := "sb1" },
            { id := "c1", sandboxID := "sb1" }, { id := "cX", sandboxID := "other" }],
          stopContainerResult := fun cid =>
            if cid = "c1" then .error (.msg "boom") else .ok (),
          unmountResult := .ok (), netPlugin := some plugin0, infra := infra0 }
        sbReadyNS =
      ([.stopContainer "c0" 0, .stopContainer "c1" 0],
       .error (.wrap "failed to stop container \"c1\"" (.msg "boom")), sbReadyNS) :=
  ⟨(stopPodSandbox_container_loop stopEnv0 sbReadyNS).1 (by intro c _ _; rfl),
   (stopPodSandbox_container_loop _ sbReadyNS).2
     [{ id := "c0", sandboxID := "sb1" }] { id := "c1", sandboxID := "sb1" }
     [{ id := "cX", sandboxID := "other" }] (.msg "boom") rfl
     (by
       intro c' hc' _
       simp at hc'
       simp [hc'])
     rfl rfl⟩

/-- On an already-NotReady sandbox with a clean loop and unmount, the trace
contains no call of a kind the skipped infra stop would have produced. -/
theorem stopPodSandbox_notReady_filter (env : StopEnv) (sb : Sandbox)
    (h1 : ∀ c ∈ env.containers, c.sandboxID = sb.id → env.stopContainerResult c.id = .ok ())
    (h2 : env.unmountResult = .ok ()) (hs : sb.state = .notReady) (k : Nat)
    (hk0 : k ≠ 0) (hk1 : k ≠ 1) (hk8 : k < 8) :
    (stopPodSandbox env sb).1.filter (fun e => e.kind == k) = [] := by
  rw [stopPodSandbox_notReady_shape env sb h1 h2 hs, List.filter_append]
  have hmap : ((env.containers.filter (fun c => c.sandboxID == sb.id)).map
      (fun c => Ev.stopContainer c.id 0)).filter (fun e => e.kind == k) = [] :=
    filter_kind_nil k _ (by
      intro e he
      simp only [List.mem_map] at he
      rcases he with ⟨c, -, rfl⟩
      simp [Ev.kind]
      omega)
  have hum : ((Ev.unmountFiles sb.id).kind == k) = false := by
    simp [Ev.kind]
    omega
  have hnet : (netPhase env sb).1.filter (fun e => e.kind == k) = [] :=
    filter_kind_nil k _ (by
      intro e he
      have := kinds_netPhase env sb e he
      simp at this
      rcases this with h | h | h | h <;> omega)
  rw [hmap]
  simp [List.filter_cons, hum, hnet]

/-- C6: the infra-container stop state machine is invoked exactly when the
lifecycle state is Ready or Unknown, and two whole calls on an
already-NotReady sandbox (with collaborators succeeding) both succeed while
neither ever sends a kill to the infra container nor invokes the infra stop
at all. -/
theorem stopPodSandbox_infra_gate_idempotent (env env₂ : StopEnv) (sb : Sandbox)
    (h1 : ∀ c ∈ env.containers, c.sandboxID = sb.id → env.stopContainerResult c.id = .ok ())
    (h2 : env.unmountResult = .ok ()) :
    (Ev.stopSandboxContainerCall sb.id ∈ (stopPodSandbox env sb).1 ↔
       sb.state = .ready ∨ sb.state = .unknown) ∧
    (sb.state = .notReady → (netPhase env sb).2.1 = .ok () →
     (∀ c ∈ env₂.containers, c.sandboxID = sb.id → env₂.stopContainerResult c.id = .ok ()) →
     env₂.unmountResult = .ok () →
       (stopPodSandbox env sb).2.1 = .ok () ∧
       (stopPodSandbox env₂ ((stopPodSandbox env sb).2.2)).2.1 = .ok () ∧
       (stopPodSandbox env sb).1.filter (fun e => e.kind == 5) = [] ∧
       (stopPodSandbox env₂ ((stopPodSandbox env sb).2.2)).1.filter
         (fun e => e.kind == 5) = [] ∧
       (stopPodSandbox env sb).1.filter (fun e => e.kind == 2) = [] ∧
       (stopPodSandbox env₂ ((stopPodSandbox env sb).2.2)).1.filter
         (fun e => e.kind == 2) = []) := by
  constructor
  · constructor
    · intro hmem
      by_contra hno
      have hnr := notReady_of_not_ready_unknown sb.state hno
      rw [stopPodSandbox_notReady_shape env sb h1 h2 hnr] at hmem
      rcases List.mem_append.mp hmem with hmem | hmem
      · simp only [List.mem_map] at hmem
        rcases hmem with ⟨c, -, hcall⟩
        exact absurd hcall (by simp)
      · rcases List.mem_cons.mp hmem with hmem | hmem
        · exact absurd hmem (by simp)
        · have := kinds_netPhase env sb _ hmem
          simp [Ev.kind] at this
    · intro hs
      have hctr := stopContainers_ok env.stopContainerResult sb.id env.containers h1
      rw [stopPodSandbox_ctr_ok env sb (by rw [hctr])]
      rcases hi : (stopSandboxContainer env.infra sb).2 with e₁ | u₁
      · rw [afterContainers_invoked_fail env sb e₁ h2 hs hi]
        simp
      · cases u₁
        rw [afterContainers_invoked_ok env sb h2 hs hi]
        simp
  · intro hs hnet h1b h2b
    have hshape := stopPodSandbox_notReady_shape env sb h1 h2 hs
    have hpost : (stopPodSandbox env sb).2.2 = (netPhase env sb).2.2 := by rw [hshape]
    have hr1 : (stopPodSandbox env sb).2.1 = .ok () := by
      rw [hshape]
      exact hnet
    have hnsnone : (netPhase env sb).2.2.netNS = none := netPhase_ok_post_none env sb hnet
    have hid : (netPhase env sb).2.2.id = sb.id := by
      rcases netPhase_post env sb with h | h <;> rw [h]
    have hstate : (netPhase env sb).2.2.state = sb.state := by
      rcases netPhase_post env sb with h | h <;> rw [h]
    have h1b2 : ∀ c ∈ env₂.containers,
        c.sandboxID = (netPhase env sb).2.2.id → env₂.stopContainerResult c.id = .ok () := by
      intro c hcmem hcid
      rw [hid] at hcid
      exact h1b c hcmem hcid
    have hs2 : (netPhase env sb).2.2.state = .notReady := by rw [hstate, hs]
    have hnp2 : netPhase env₂ ((netPhase env sb).2.2) =
        ([], .ok (), (netPhase env sb).2.2) := netPhase_none env₂ _ hnsnone
    refine ⟨hr1, ?_, ?_, ?_, ?_, ?_⟩
    · rw [hpost, stopPodSandbox_notReady_shape env₂ _ h1b2 h2b hs2, hnp2]
    · exact stopPodSandbox_notReady_filter env sb h1 h2 hs 5 (by omega) (by omega) (by omega)
    · rw [hpost]
      exact stopPodSandbox_notReady_filter env₂ _ h1b2 h2b hs2 5
        (by omega) (by omega) (by omega)
    · exact stopPodSandbox_notReady_filter env sb h1 h2 hs 2 (by omega) (by omega) (by omega)
    · rw [hpost]
      exact stopPodSandbox_notReady_filter env₂ _ h1b2 h2b hs2 2
        (by omega) (by omega) (by omega)

/-- Instantiation of the C6 theorem: two calls on an already-NotReady
sandbox both succeed with no infra-stop invocation and no kill. -/
theorem stopPodSandbox_infra_gate_idempotent_witness :
    (stopPodSandbox stopEnv0 sbNotReadyNS).2.1 = .ok () ∧
    (stopPodSandbox stopEnv0 ((stopPodSandbox stopEnv0 sbNotReadyNS).2.2)).2.1 = .ok () ∧
    (stopPodSandbox stopEnv0 sbNotReadyNS).1.filter (fun e => e.kind == 5) = [] ∧
    (stopPodSandbox stopEnv0 ((stopPodSandbox stopEnv0 sbNotReadyNS).2.2)).1.filter
      (fun e => e.kind == 5) = [] ∧
    (stopPodSandbox stopEnv0 sbNotReadyNS).1.filter (fun e => e.kind == 2) = [] ∧
    (stopPodSandbox stopEnv0 ((stopPodSandbox stopEnv0 sbNotReadyNS).2.2)).1.filter
      (fun e => e.kind == 2) = [] :=
  (stopPodSandbox_infra_gate_idempotent stopEnv0 stopEnv0 sbNotReadyNS
    (by intro c _ _; rfl) rfl).2 rfl rfl (by intro c _ _; rfl) rfl

/-- On a sandbox with no namespace resource, every event of the
post-container phases is of a pre-network kind. -/
theorem kinds_afterContainers_no_netns (env : StopEnv) (sb : Sandbox)
    (hns : sb.netNS = none) :
    ∀ e ∈ (afterContainers env sb).1, e.kind ≤ 7 := by
  intro e he
  rcases hu : env.unmountResult with e₀ | u₀
  · rw [afterContainers_unmount_fail env sb e₀ hu] at he
    simp at he
    simp [he, Ev.kind]
  · cases u₀
    by_cases hs : sb.state = .ready ∨ sb.state = .unknown
    · rcases hi : (stopSandboxContainer env.infra sb).2 with e₁ | u₁
      · rw [afterContainers_invoked_fail env sb e₁ hu hs hi] at he
        simp at he
        rcases he with he | he | he
        · simp [he, Ev.kind]
        · simp [he, Ev.kind]
        · have := kinds_stopSandboxContainer env.infra sb e he
          simp at this
          rcases this with h | h | h | h | h <;> omega
      · cases u₁
        rw [afterContainers_invoked_ok env sb hu hs hi] at he
        rw [netPhase_none env sb hns] at he
        simp at he
        rcases he with he | he | he
        · simp [he, Ev.kind]
        · simp [he, Ev.kind]
        · have := kinds_stopSandboxContainer env.infra sb e he
          simp at this
          rcases this with h | h | h | h | h <;> omega
    · rw [afterContainers_notReady env sb hu (notReady_of_not_ready_unknown sb.state hs)] at he
      rw [netPhase_none env sb hns] at he
      simp at he
      simp [he, Ev.kind]

/-- A whole call on a sandbox with no namespace resource never invokes
network teardown, whatever the environment does. -/
theorem no_teardown_of_no_netns (env : StopEnv) (sb : Sandbox) (hns : sb.netNS = none) :
    (stopPodSandbox env sb).1.filter (fun e => e.kind == 9) = [] := by
  apply filter_kind_nil
  intro e he
  rcases hctr : stopContainers env.stopContainerResult sb.id env.containers with ⟨t, r⟩
  rcases r with er | u
  · have hc2 : (stopContainers env.stopContainerResult sb.id env.containers).2 = .error er := by
      rw [hctr]
    rw [stopPodSandbox_ctr_fail env sb er hc2] at he
    have := kinds_stopContainers env.stopContainerResult sb.id env.containers e he
    omega
  · cases u
    have hc2 : (stopContainers env.stopContainerResult sb.id env.containers).2 = .ok () := by
      rw [hctr]
    rw [stopPodSandbox_ctr_ok env sb hc2] at he
    rcases List.mem_append.mp he with he | he
    · have := kinds_stopContainers env.stopContainerResult sb.id env.containers e he
      omega
    · have := kinds_afterContainers_no_netns env sb hns e he
      omega

/-- C1: a successful whole call on a sandbox owning a namespace resource
performs exactly one network-teardown invocation, releases the resource
(the final record holds none), and a subsequent call on that record — under
any environment — performs no teardown at all. -/
theorem stopPodSandbox_teardown_once (env env₂ : StopEnv) (sb : Sandbox) (ns : NetNS)
    (hns : sb.netNS = some ns) (hok : (stopPodSandbox env sb).2.1 = .ok ()) :
    (stopPodSandbox env sb).2.2.netNS = none ∧
    ((stopPodSandbox env sb).1.filter (fun e => e.kind == 9) =
        [.teardownPodCall sb.id ""] ∨
     (stopPodSandbox env sb).1.filter (fun e => e.kind == 9) =
        [.teardownPodCall sb.id sb.netNSPath]) ∧
    (stopPodSandbox env₂ ((stopPodSandbox env sb).2.2)).1.filter
      (fun e => e.kind == 9) = [] := by
  obtain ⟨hc2, hok2, hpost⟩ := stopPodSandbox_ok_parts env sb hok
  obtain ⟨h2, h3, hnet⟩ := afterContainers_ok_parts env sb hok2
  have hsome := netPhase_some_ok env sb ns hns hnet
  obtain ⟨b, hb⟩ := hsome.2
  have htr := afterContainers_net_transparent env sb h2 h3
  have hpostnone : (stopPodSandbox env sb).2.2.netNS = none := by
    rw [hpost, htr.2.1, hsome.1]
  refine ⟨hpostnone, ?_, no_teardown_of_no_netns env₂ _ hpostnone⟩
  have hone : (stopPodSandbox env sb).1.filter (fun e => e.kind == 9) =
      [.teardownPodCall sb.id (if b then "" else sb.netNSPath)] := by
    rw [stopPodSandbox_ctr_ok env sb hc2, List.filter_append,
      stopContainers_filter_nil env.stopContainerResult sb.id env.containers 9 (by omega),
      htr.2.2 9 (by omega), netPhase_teardown_path env sb ns b hns hb]
    simp
  rcases b
  · right
    simpa using hone
  · left
    simpa using hone

/-- Instantiation of the C1 theorem: a fully successful call tears down
once, clears the resource, and a repeat call performs no teardown. -/
theorem stopPodSandbox_teardown_once_witness :
    (stopPodSandbox stopEnv0 sbReadyNS).2.2.netNS = none ∧
    ((stopPodSandbox stopEnv0 sbReadyNS).1.filter (fun e => e.kind == 9) =
        [.teardownPodCall "sb1" ""] ∨
     (stopPodSandbox stopEnv0 sbReadyNS).1.filter (fun e => e.kind == 9) =
        [.teardownPodCall "sb1" "/ns/sb1"]) ∧
    (stopPodSandbox stopEnv0 ((stopPodSandbox stopEnv0 sbReadyNS).2.2)).1.filter
      (fun e => e.kind == 9) = [] :=
  stopPodSandbox_teardown_once stopEnv0 stopEnv0 sbReadyNS ns0 rfl rfl
